import Mathlib

/- Verification of `l2rpn_baselines/utils/TrainingParam.py`.

   Shallow embedding conventions:
   * Python ints are `ℤ`, Python floats are `ℚ` (every float value the class
     stores comes from literals or exact arithmetic on inputs; the two
     transcendental quantities, `np.log` in `_exp_facto` and `np.exp` in
     `get_next_epsilon`, are modelled over `ℝ`).
   * A field that may hold `None` is an `Option`.
   * A Python raise is an `Except PyError` result; each raise site gets its
     own constructor named after the Python exception class and condition.
   * Mutating methods are state passing: they return the updated object
     (paired with the method result where there is one). -/

/-- The exceptions the module can raise, one constructor per raise site
(`RuntimeError` in `from_dict`, `RuntimeError` and `NotADirectoryError` in
`save_as_json`, `FileNotFoundError` in `from_json`, plus the implicit
`TypeError` from arithmetic/comparison on `None` and `ZeroDivisionError`). -/
inductive PyError where
  | runtimeErrorNotADict
  | runtimeErrorDirNotFound
  | notADirectoryError
  | fileNotFoundError
  | typeError
  | zeroDivisionError
deriving DecidableEq

/-- Python `int(q)` on a float: truncation toward zero. -/
def pyInt (q : ℚ) : ℤ := if q < 0 then ⌈q⌉ else ⌊q⌋

/-- The state of a `TrainingParam` object (attributes assigned in
`TrainingParam.__init__`, in assignment order).  `step_for_final_epsilon`,
`lr_decay_steps` and `lr_decay_rate` are stored through `float(...)`, hence
`ℚ`-valued; `_exp_facto` holds `np.log(initial_epsilon/final_epsilon)`, a
real.  The function-valued attribute `max_iter_fun` always holds
`default_max_iter_fun` in this development and is not represented. -/
structure TrainingParam where
  random_sample_datetime_start : Option ℤ
  buffer_size : Option ℤ
  minibatch_size : Option ℤ
  min_observation : Option ℤ
  final_epsilon : Option ℚ
  initial_epsilon : Option ℚ
  step_for_final_epsilon : Option ℚ
  lr : Option ℚ
  lr_decay_steps : Option ℚ
  lr_decay_rate : Option ℚ
  max_global_norm_grad : Option ℚ
  max_value_grad : Option ℚ
  max_loss : Option ℚ
  last_step : Option ℤ
  num_frames : Option ℤ
  discount_factor : Option ℚ
  tau : Option ℚ
  update_freq : Option ℤ
  min_iter : Option ℤ
  max_iter : Option ℤ
  update_nb_iter_ : Option ℤ
  step_increase_nb_iter : Option ℤ
  oversampling_rate : Option ℚ
  update_tensorboard_freq : Option ℤ
  save_model_each : Option ℤ
  _exp_facto : ℝ
  _1_update_nb_iter : ℚ

/-- `TrainingParam.__init__`, with the Python default values.  Arguments that
the constructor feeds to `float(...)`, `int(...)` or a comparison cannot be
`None` (that would raise), so they are non-optional; the others are `Option`s. -/
noncomputable def TrainingParam.init
    (buffer_size : Option ℤ := some 40000)
    (minibatch_size : Option ℤ := some 64)
    (step_for_final_epsilon : ℤ := 100000)
    (min_observation : Option ℤ := some 5000)
    (final_epsilon : ℚ := 1/(7*288))
    (initial_epsilon : ℚ := 4/10)
    (lr : Option ℚ := some (1/10000))
    (lr_decay_steps : ℚ := 10000)
    (lr_decay_rate : ℚ := 999/1000)
    (num_frames : ℤ := 1)
    (discount_factor : ℚ := 99/100)
    (tau : ℚ := 1/10)
    (update_freq : Option ℤ := some 256)
    (min_iter : Option ℤ := some 50)
    (max_iter : Option ℤ := some 8064)
    (update_nb_iter : ℤ := 10)
    (step_increase_nb_iter : Option ℤ := some 0)
    (update_tensorboard_freq : Option ℤ := some 1000)
    (save_model_each : Option ℤ := some 10000)
    (random_sample_datetime_start : Option ℤ := none)
    (oversampling_rate : Option ℚ := none)
    (max_global_norm_grad : Option ℚ := none)
    (max_value_grad : Option ℚ := none)
    (max_loss : Option ℚ := some 1000) : TrainingParam :=
  { random_sample_datetime_start := random_sample_datetime_start
    buffer_size := buffer_size
    minibatch_size := minibatch_size
    min_observation := min_observation
    final_epsilon := some final_epsilon
    initial_epsilon := some initial_epsilon
    step_for_final_epsilon := some ((step_for_final_epsilon : ℤ) : ℚ)
    lr := lr
    lr_decay_steps := some lr_decay_steps
    lr_decay_rate := some lr_decay_rate
    max_global_norm_grad := max_global_norm_grad
    max_value_grad := max_value_grad
    max_loss := max_loss
    last_step := some 0
    num_frames := some num_frames
    discount_factor := some discount_factor
    tau := some tau
    update_freq := update_freq
    min_iter := min_iter
    max_iter := max_iter
    update_nb_iter_ := some update_nb_iter
    step_increase_nb_iter := some (step_increase_nb_iter.getD 0)
    oversampling_rate := oversampling_rate
    update_tensorboard_freq := update_tensorboard_freq
    save_model_each := save_model_each
    _exp_facto :=
      if 0 < final_epsilon then
        Real.log ((initial_epsilon : ℝ) / (final_epsilon : ℝ))
      else 1
    _1_update_nb_iter :=
      if 0 < update_nb_iter then 1 / (update_nb_iter : ℚ) else 1 }

/-- `TrainingParam.update_nb_iter(self, update_nb_iter)`: sets the field and
recomputes `_1_update_nb_iter`.  (Calling the Python method with `None`
raises in the comparison; callers model that raise before invoking this.) -/
def TrainingParam.update_nb_iter (cfg : TrainingParam) (n : ℤ) : TrainingParam :=
  { cfg with
    update_nb_iter_ := some n
    _1_update_nb_iter := if 0 < n then 1 / (n : ℚ) else 1 }

/-- `TrainingParam.default_max_iter_fun(self, nb_success)`:
`self.step_increase_nb_iter * int(nb_success * self._1_update_nb_iter)`.
A `None` `step_increase_nb_iter` raises `TypeError`. -/
def TrainingParam.default_max_iter_fun (cfg : TrainingParam) (nb_success : ℤ) :
    Except PyError ℤ :=
  match cfg.step_increase_nb_iter with
  | none => .error .typeError
  | some s => .ok (s * pyInt ((nb_success : ℚ) * cfg._1_update_nb_iter))

/-- `TrainingParam.tell_step(self, current_step)`. -/
def TrainingParam.tell_step (cfg : TrainingParam) (current_step : ℤ) : TrainingParam :=
  { cfg with last_step := some current_step }

/-- `TrainingParam.get_next_epsilon(self, current_step)`.  The assignment
`self.last_step = current_step` happens before any possible raise, so the
updated state is returned in every branch.  Branches model: `None`
`step_for_final_epsilon` in the comparison raises `TypeError`; in the
in-range branch a zero `step_for_final_epsilon` raises `ZeroDivisionError`
and a `None` `initial_epsilon` raises `TypeError`; in the out-of-range
branch `res = self.final_epsilon` is returned as is (possibly `None`). -/
noncomputable def TrainingParam.get_next_epsilon (cfg : TrainingParam)
    (current_step : ℤ) : Except PyError (Option ℝ) × TrainingParam :=
  let c := { cfg with last_step := some current_step }
  (match c.step_for_final_epsilon with
   | none => .error .typeError
   | some sfe =>
     if sfe < (current_step : ℚ) then
       .ok (c.final_epsilon.map (fun q => (q : ℝ)))
     else if sfe = 0 then .error .zeroDivisionError
     else
       match c.initial_epsilon with
       | none => .error .typeError
       | some ie =>
         .ok (some ((ie : ℝ) *
           Real.exp (-(((current_step : ℤ) : ℝ) / ((sfe : ℚ) : ℝ)) * c._exp_facto))),
   c)

/-- A dictionary entry for a key of the serialization allowlists:
`none` = key absent, `some none` = key present with value `None`,
`some (some v)` = key present with value `v`. -/
abbrev Entry (α : Type) : Type := Option (Option α)

/-- The dictionary produced by `to_dict` / accepted by `from_dict`: one slot
per name of `TrainingParam._int_attr` (13 `int` keys) and of
`TrainingParam._float_attr` (11 `float` keys). -/
structure TPDict where
  buffer_size : Entry ℤ
  minibatch_size : Entry ℤ
  step_for_final_epsilon : Entry ℤ
  min_observation : Entry ℤ
  last_step : Entry ℤ
  num_frames : Entry ℤ
  update_freq : Entry ℤ
  min_iter : Entry ℤ
  max_iter : Entry ℤ
  update_tensorboard_freq : Entry ℤ
  save_model_each : Entry ℤ
  update_nb_iter_ : Entry ℤ
  step_increase_nb_iter : Entry ℤ
  final_epsilon : Entry ℚ
  initial_epsilon : Entry ℚ
  lr : Entry ℚ
  lr_decay_steps : Entry ℚ
  lr_decay_rate : Entry ℚ
  discount_factor : Entry ℚ
  tau : Entry ℚ
  oversampling_rate : Entry ℚ
  max_global_norm_grad : Entry ℚ
  max_value_grad : Entry ℚ
  max_loss : Entry ℚ

/-- `TrainingParam.to_dict(self)`: every allowlisted key is emitted;
`None` stays `None`, an `int` key's value goes through `int(...)`
(truncation — relevant for `step_for_final_epsilon`, which is stored as a
float), a `float` key's value through `float(...)` (the identity here). -/
def TrainingParam.to_dict (cfg : TrainingParam) : TPDict :=
  { buffer_size := some cfg.buffer_size
    minibatch_size := some cfg.minibatch_size
    step_for_final_epsilon := some (cfg.step_for_final_epsilon.map pyInt)
    min_observation := some cfg.min_observation
    last_step := some cfg.last_step
    num_frames := some cfg.num_frames
    update_freq := some cfg.update_freq
    min_iter := some cfg.min_iter
    max_iter := some cfg.max_iter
    update_tensorboard_freq := some cfg.update_tensorboard_freq
    save_model_each := some cfg.save_model_each
    update_nb_iter_ := some cfg.update_nb_iter_
    step_increase_nb_iter := some cfg.step_increase_nb_iter
    final_epsilon := some cfg.final_epsilon
    initial_epsilon := some cfg.initial_epsilon
    lr := some cfg.lr
    lr_decay_steps := some cfg.lr_decay_steps
    lr_decay_rate := some cfg.lr_decay_rate
    discount_factor := some cfg.discount_factor
    tau := some cfg.tau
    oversampling_rate := some cfg.oversampling_rate
    max_global_norm_grad := some cfg.max_global_norm_grad
    max_value_grad := some cfg.max_value_grad
    max_loss := some cfg.max_loss }

/-- One iteration of the `from_dict` attribute loop, for an `int` key stored
in an `int`-typed slot: absent key leaves the attribute, present `None` sets
`None`, present value sets `int(v) = v`. -/
def applyIntEntry (cur : Option ℤ) (e : Entry ℤ) : Option ℤ :=
  match e with
  | none => cur
  | some none => none
  | some (some v) => some v

/-- One iteration of the `from_dict` `int` loop for `step_for_final_epsilon`,
whose attribute slot is float-typed: the stored value is the int `int(v)`. -/
def applyIntEntryQ (cur : Option ℚ) (e : Entry ℤ) : Option ℚ :=
  match e with
  | none => cur
  | some none => none
  | some (some v) => some ((v : ℤ) : ℚ)

/-- One iteration of the `from_dict` `float` loop: absent key leaves the
attribute, present `None` sets `None`, present value sets `float(v) = v`. -/
def applyFloatEntry (cur : Option ℚ) (e : Entry ℚ) : Option ℚ :=
  match e with
  | none => cur
  | some none => none
  | some (some v) => some v

/-- The `for attr_nm in TrainingParam._int_attr` loop of `from_dict`. -/
def TrainingParam.applyIntAttrs (cfg : TrainingParam) (d : TPDict) : TrainingParam :=
  { cfg with
    buffer_size := applyIntEntry cfg.buffer_size d.buffer_size
    minibatch_size := applyIntEntry cfg.minibatch_size d.minibatch_size
    step_for_final_epsilon := applyIntEntryQ cfg.step_for_final_epsilon d.step_for_final_epsilon
    min_observation := applyIntEntry cfg.min_observation d.min_observation
    last_step := applyIntEntry cfg.last_step d.last_step
    num_frames := applyIntEntry cfg.num_frames d.num_frames
    update_freq := applyIntEntry cfg.update_freq d.update_freq
    min_iter := applyIntEntry cfg.min_iter d.min_iter
    max_iter := applyIntEntry cfg.max_iter d.max_iter
    update_tensorboard_freq := applyIntEntry cfg.update_tensorboard_freq d.update_tensorboard_freq
    save_model_each := applyIntEntry cfg.save_model_each d.save_model_each
    update_nb_iter_ := applyIntEntry cfg.update_nb_iter_ d.update_nb_iter_
    step_increase_nb_iter := applyIntEntry cfg.step_increase_nb_iter d.step_increase_nb_iter }

/-- The `for attr_nm in TrainingParam._float_attr` loop of `from_dict`. -/
def TrainingParam.applyFloatAttrs (cfg : TrainingParam) (d : TPDict) : TrainingParam :=
  { cfg with
    final_epsilon := applyFloatEntry cfg.final_epsilon d.final_epsilon
    initial_epsilon := applyFloatEntry cfg.initial_epsilon d.initial_epsilon
    lr := applyFloatEntry cfg.lr d.lr
    lr_decay_steps := applyFloatEntry cfg.lr_decay_steps d.lr_decay_steps
    lr_decay_rate := applyFloatEntry cfg.lr_decay_rate d.lr_decay_rate
    discount_factor := applyFloatEntry cfg.discount_factor d.discount_factor
    tau := applyFloatEntry cfg.tau d.tau
    oversampling_rate := applyFloatEntry cfg.oversampling_rate d.oversampling_rate
    max_global_norm_grad := applyFloatEntry cfg.max_global_norm_grad d.max_global_norm_grad
    max_value_grad := applyFloatEntry cfg.max_value_grad d.max_value_grad
    max_loss := applyFloatEntry cfg.max_loss d.max_loss }

/-- The argument of the static method `TrainingParam.from_dict(tmp)`: either
an actual dictionary or any non-`dict` Python value. -/
inductive PyInput where
  | dict (d : TPDict)
  | nonDict

/-- `TrainingParam.from_dict(tmp)`.  A non-`dict` argument raises
`RuntimeError`.  Otherwise a default-constructed object is run through the
`int` and `float` attribute loops; then `res.final_epsilon > 0` raises
`TypeError` on `None`, and in the positive case `np.log(None/...)` raises
`TypeError` when `initial_epsilon` is `None`; finally
`res.update_nb_iter(res.update_nb_iter_)` raises `TypeError` on `None`. -/
noncomputable def TrainingParam.from_dict (tmp : PyInput) :
    Except PyError TrainingParam :=
  match tmp with
  | .nonDict => .error .runtimeErrorNotADict
  | .dict d =>
    let r := (TrainingParam.init.applyIntAttrs d).applyFloatAttrs d
    match r.final_epsilon with
    | none => .error .typeError
    | some f =>
      if 0 < f then
        match r.initial_epsilon with
        | none => .error .typeError
        | some i =>
          let r2 := { r with _exp_facto := Real.log ((i : ℝ) / (f : ℝ)) }
          match r2.update_nb_iter_ with
          | none => .error .typeError
          | some u => .ok (r2.update_nb_iter u)
      else
        let r2 := { r with _exp_facto := 1 }
        match r2.update_nb_iter_ with
        | none => .error .typeError
        | some u => .ok (r2.update_nb_iter u)

/-- The slice of the filesystem state that `save_as_json` consults and
modifies: the two `os.path` predicates and the set of written files (path
and flat key-value content). -/
structure FileSystem where
  pathExists : String → Bool
  isdir : String → Bool
  files : List (String × TPDict)

/-- `os.path.join` for the one call site (directory and plain file name). -/
def osPathJoin (path name : String) : String := path ++ "/" ++ name

/-- `TrainingParam.save_as_json(self, path, name=None)`: default file name
`training_parameters.json`; `RuntimeError` when `path` does not exist,
`NotADirectoryError` when it exists but is not a directory; otherwise the
dictionary is written to `os.path.join(path, name)`. -/
def TrainingParam.save_as_json (cfg : TrainingParam) (fs : FileSystem)
    (path : String) (name : Option String) : Except PyError FileSystem :=
  let res := cfg.to_dict
  let name := name.getD "training_parameters.json"
  if fs.pathExists path = false then .error .runtimeErrorDirNotFound
  else if fs.isdir path = false then .error .notADirectoryError
  else .ok { fs with files := fs.files ++ [(osPathJoin path name, res)] }

/-- The recompute-on-write invariant of the two derived coefficients:
whenever the source fields hold numbers, `_1_update_nb_iter` is
`1 / update_nb_iter_` for a positive `update_nb_iter_` and `1.0` otherwise,
and `_exp_facto` is `ln(initial_epsilon / final_epsilon)` for a positive
`final_epsilon` and the fallback constant `1` otherwise. -/
def TrainingParam.derivedConsistent (cfg : TrainingParam) : Prop :=
  (∀ u : ℤ, cfg.update_nb_iter_ = some u →
    cfg._1_update_nb_iter = if 0 < u then 1 / (u : ℚ) else 1) ∧
  (∀ f i : ℚ, cfg.final_epsilon = some f → cfg.initial_epsilon = some i →
    cfg._exp_facto = if 0 < f then Real.log ((i : ℝ) / (f : ℝ)) else 1)

/-- A mapping whose only key is `step_increase_nb_iter`, present with value
`None`. -/
def dStepNone : TPDict :=
  { buffer_size := none
    minibatch_size := none
    step_for_final_epsilon := none
    min_observation := none
    last_step := none
    num_frames := none
    update_freq := none
    min_iter := none
    max_iter := none
    update_tensorboard_freq := none
    save_model_each := none
    update_nb_iter_ := none
    step_increase_nb_iter := some none
    final_epsilon := none
    initial_epsilon := none
    lr := none
    lr_decay_steps := none
    lr_decay_rate := none
    discount_factor := none
    tau := none
    oversampling_rate := none
    max_global_norm_grad := none
    max_value_grad := none
    max_loss := none }

/-- A filesystem with no entries at all. -/
def fsMissing : FileSystem := ⟨fun _ => false, fun _ => false, []⟩

/-- A filesystem in which every path exists but none is a directory. -/
def fsNotDir : FileSystem := ⟨fun _ => true, fun _ => false, []⟩

/-- A filesystem in which every path is an existing directory. -/
def fsDir : FileSystem := ⟨fun _ => true, fun _ => true, []⟩

/-- `TrainingParam.do_train(self)`:
`self.last_step % self.update_freq == 0`.  `None` in either operand raises
`TypeError`; `update_freq == 0` raises `ZeroDivisionError`.  Python `%` is
floored modulus, i.e. `Int.fmod`.  The method assigns nothing, so the state
component is the input state. -/
def TrainingParam.do_train (cfg : TrainingParam) :
    Except PyError Bool × TrainingParam :=
  (match cfg.last_step, cfg.update_freq with
   | some l, some u =>
     if u = 0 then .error .zeroDivisionError
     else .ok (decide (Int.fmod l u = 0))
   | _, _ => .error .typeError,
   cfg)

/- ### Helper lemmas -/

lemma applyIntEntry_some (cur : Option ℤ) (o : Option ℤ) :
    applyIntEntry cur (some o) = o := by cases o <;> rfl

lemma applyFloatEntry_some (cur : Option ℚ) (o : Option ℚ) :
    applyFloatEntry cur (some o) = o := by cases o <;> rfl

lemma pyInt_intCast (z : ℤ) : pyInt ((z : ℤ) : ℚ) = z := by
  unfold pyInt
  split
  · exact Int.ceil_intCast z
  · exact Int.floor_intCast z

/-- Serialization round-trip for any constructed configuration, with an
arbitrary `last_step` recorded through `tell_step`: `from_dict ∘ to_dict`
reproduces every allowlisted field and both derived coefficients; only
`random_sample_datetime_start` (not allowlisted) resets to the default. -/
theorem roundtrip_aux (b ms : Option ℤ) (sfe : ℤ) (mo : Option ℤ) (fe ie : ℚ)
    (lr : Option ℚ) (lds ldr : ℚ) (nf : ℤ) (df tu : ℚ) (uf mni mxi : Option ℤ)
    (uni : ℤ) (sinc utf sme rsds : Option ℤ) (ovr mgng mvg ml : Option ℚ) (s : ℤ) :
    TrainingParam.from_dict (.dict (((TrainingParam.init b ms sfe mo fe ie lr lds ldr
        nf df tu uf mni mxi uni sinc utf sme rsds ovr mgng mvg ml).tell_step s).to_dict)) =
    .ok { (TrainingParam.init b ms sfe mo fe ie lr lds ldr nf df tu uf mni mxi uni
        sinc utf sme rsds ovr mgng mvg ml).tell_step s with
        random_sample_datetime_start := none } := by
  by_cases hfe : 0 < fe <;> by_cases hun : 0 < uni <;>
    simp [TrainingParam.from_dict, TrainingParam.init, TrainingParam.tell_step,
      TrainingParam.to_dict, TrainingParam.applyIntAttrs, TrainingParam.applyFloatAttrs,
      applyIntEntry_some, applyFloatEntry_some, applyIntEntryQ, pyInt_intCast,
      TrainingParam.update_nb_iter, hfe, hun]

/- ### Claim theorems -/

/-- Claim C1: for every configuration built by the constructor (any argument
values), `from_dict (to_dict cfg)` reproduces every field of the integer and
float allowlists with exactly the value held by `cfg` (`None` reproduced as
`None`), and the derived coefficients `_exp_facto` and `_1_update_nb_iter`
of the result equal those of `cfg`; the single structure equality below says
all that at once, since `random_sample_datetime_start` is the only attribute
outside the two allowlists and the derived pair. -/
theorem TrainingParam.from_dict_to_dict_roundtrip (b ms : Option ℤ) (sfe : ℤ)
    (mo : Option ℤ) (fe ie : ℚ) (lr : Option ℚ) (lds ldr : ℚ) (nf : ℤ) (df tu : ℚ)
    (uf mni mxi : Option ℤ) (uni : ℤ) (sinc utf sme rsds : Option ℤ)
    (ovr mgng mvg ml : Option ℚ) :
    TrainingParam.from_dict (.dict ((TrainingParam.init b ms sfe mo fe ie lr lds ldr
        nf df tu uf mni mxi uni sinc utf sme rsds ovr mgng mvg ml).to_dict)) =
    .ok { TrainingParam.init b ms sfe mo fe ie lr lds ldr nf df tu uf mni mxi uni
        sinc utf sme rsds ovr mgng mvg ml with
        random_sample_datetime_start := none } :=
  roundtrip_aux b ms sfe mo fe ie lr lds ldr nf df tu uf mni mxi uni sinc utf sme
    rsds ovr mgng mvg ml 0

/-- Claim C8: `from_dict` on any non-mapping input fails with the
`RuntimeError` raised by the `isinstance` guard (the spec's
`InvalidArgument`) and produces no configuration. -/
theorem TrainingParam.from_dict_non_mapping :
    TrainingParam.from_dict .nonDict = .error .runtimeErrorNotADict := rfl

/-- Claim C10: `last_step` is part of the integer allowlist: `to_dict` emits
it and `from_dict` restores it, so the round trip of a constructed
configuration whose `last_step` was moved to `s` by `tell_step` yields
`last_step = s`, not the fresh-construction value `0`. -/
theorem TrainingParam.last_step_serialized (b ms : Option ℤ) (sfe : ℤ)
    (mo : Option ℤ) (fe ie : ℚ) (lr : Option ℚ) (lds ldr : ℚ) (nf : ℤ) (df tu : ℚ)
    (uf mni mxi : Option ℤ) (uni : ℤ) (sinc utf sme rsds : Option ℤ)
    (ovr mgng mvg ml : Option ℚ) (s : ℤ) :
    (((TrainingParam.init b ms sfe mo fe ie lr lds ldr nf df tu uf mni mxi uni sinc
        utf sme rsds ovr mgng mvg ml).tell_step s).to_dict).last_step = some (some s) ∧
    ∃ cfg, TrainingParam.from_dict (.dict (((TrainingParam.init b ms sfe mo fe ie lr
        lds ldr nf df tu uf mni mxi uni sinc utf sme rsds ovr mgng mvg ml).tell_step
        s).to_dict)) = .ok cfg ∧ cfg.last_step = some s :=
  ⟨rfl, _, roundtrip_aux b ms sfe mo fe ie lr lds ldr nf df tu uf mni mxi uni sinc
    utf sme rsds ovr mgng mvg ml s, rfl⟩

/-- Claim C3: whenever `current_step` exceeds `step_for_final_epsilon`,
`get_next_epsilon` returns `final_epsilon` (as the float it holds, `None`
included), and every call — whatever the step — records `current_step` in
`last_step` and changes nothing else. -/
theorem TrainingParam.get_next_epsilon_final_branch :
    (∀ (cfg : TrainingParam) (s : ℤ) (sfe : ℚ),
      cfg.step_for_final_epsilon = some sfe → sfe < (s : ℚ) →
      (cfg.get_next_epsilon s).1 = .ok (cfg.final_epsilon.map (fun q => (q : ℝ)))) ∧
    (∀ (cfg : TrainingParam) (s : ℤ),
      (cfg.get_next_epsilon s).2 = { cfg with last_step := some s }) := by
  constructor
  · intro cfg s sfe hsfe hlt
    simp only [TrainingParam.get_next_epsilon, hsfe]
    rw [if_pos hlt]
  · intro cfg s
    rfl

/-- Witness for C3 at the default configuration and step `100001`. -/
theorem TrainingParam.get_next_epsilon_final_branch_witness :
    ((TrainingParam.init).get_next_epsilon 100001).1 =
      .ok ((TrainingParam.init).final_epsilon.map (fun q => (q : ℝ))) ∧
    ((TrainingParam.init).get_next_epsilon 100001).2 =
      { TrainingParam.init with last_step := some 100001 } :=
  ⟨TrainingParam.get_next_epsilon_final_branch.1 TrainingParam.init 100001
      ((100000 : ℤ) : ℚ) rfl (by norm_num),
   TrainingParam.get_next_epsilon_final_branch.2 TrainingParam.init 100001⟩

/-- Claim C4: on a configuration whose `step_increase_nb_iter` is a number
`s` and whose inverse coefficient is non-negative (as every coefficient the
class ever computes is), the default `max_iter_fun` policy at a non-negative
`nb_success` returns `s * ⌊nb_success * _1_update_nb_iter⌋` (Python `int`
truncation coincides with `⌊⌋` on the non-negative product); in particular
`s = 0` forces result `0`. -/
theorem TrainingParam.default_max_iter_fun_floor (cfg : TrainingParam)
    (nb s : ℤ) (hs : cfg.step_increase_nb_iter = some s) (hnb : 0 ≤ nb)
    (hinv : 0 ≤ cfg._1_update_nb_iter) :
    cfg.default_max_iter_fun nb = .ok (s * ⌊(nb : ℚ) * cfg._1_update_nb_iter⌋) ∧
    (s = 0 → cfg.default_max_iter_fun nb = .ok 0) := by
  have hprod : ¬ ((nb : ℚ) * cfg._1_update_nb_iter < 0) := by
    push_neg
    exact mul_nonneg (by exact_mod_cast hnb) hinv
  constructor
  · simp only [TrainingParam.default_max_iter_fun, hs]
    rw [pyInt, if_neg hprod]
  · intro h0
    simp only [TrainingParam.default_max_iter_fun, hs, h0, zero_mul]

/-- Witness for C4 at the default configuration (`step_increase_nb_iter = 0`)
and `nb_success = 25`. -/
theorem TrainingParam.default_max_iter_fun_floor_witness :
    (TrainingParam.init).default_max_iter_fun 25 =
      .ok (0 * ⌊((25 : ℤ) : ℚ) * (TrainingParam.init)._1_update_nb_iter⌋) ∧
    ((0 : ℤ) = 0 → (TrainingParam.init).default_max_iter_fun 25 = .ok 0) :=
  TrainingParam.default_max_iter_fun_floor TrainingParam.init 25 0 rfl
    (by norm_num) (by norm_num [TrainingParam.init])

/-- Claim C5: on a configuration whose `last_step` and `update_freq` hold
numbers `l` and `u` with `u ≠ 0` (a zero `update_freq` raises
`ZeroDivisionError`), `do_train` returns `true` exactly when
`l mod u = 0` — in particular it returns `true` at `l = 0` — and it leaves
the configuration untouched. -/
theorem TrainingParam.do_train_mod_iff (cfg : TrainingParam) (l u : ℤ)
    (hl : cfg.last_step = some l) (hu : cfg.update_freq = some u) (hu0 : u ≠ 0) :
    ((cfg.do_train).1 = .ok true ↔ Int.fmod l u = 0) ∧
    (cfg.do_train).2 = cfg ∧
    (l = 0 → (cfg.do_train).1 = .ok true) := by
  have hbranch : (cfg.do_train).1 = .ok (decide (Int.fmod l u = 0)) := by
    simp only [TrainingParam.do_train, hl, hu]
    rw [if_neg hu0]
  refine ⟨?_, rfl, ?_⟩
  · rw [hbranch]
    simp
  · intro h0
    rw [hbranch, h0]
    simp [Int.fmod]

/-- Witness for C5 at the default configuration
(`last_step = 0`, `update_freq = 256`). -/
theorem TrainingParam.do_train_mod_iff_witness :
    (((TrainingParam.init).do_train).1 = .ok true ↔ Int.fmod 0 256 = 0) ∧
    ((TrainingParam.init).do_train).2 = TrainingParam.init ∧
    ((0 : ℤ) = 0 → ((TrainingParam.init).do_train).1 = .ok true) :=
  TrainingParam.do_train_mod_iff TrainingParam.init 0 256 rfl rfl (by norm_num)

/-- Claim C7: `save_as_json` fails with the `RuntimeError` of the
missing-directory check (the spec's `NotFound`) when the path does not
exist, fails with `NotADirectoryError` when the path exists but is not a
directory, and otherwise writes the serialized dictionary into the directory
under the default file name `training_parameters.json` when no name is
given. -/
theorem TrainingParam.save_as_json_errors (cfg : TrainingParam)
    (fs : FileSystem) (path : String) :
    (fs.pathExists path = false →
      cfg.save_as_json fs path none = .error .runtimeErrorDirNotFound) ∧
    (fs.pathExists path = true → fs.isdir path = false →
      cfg.save_as_json fs path none = .error .notADirectoryError) ∧
    (fs.pathExists path = true → fs.isdir path = true →
      cfg.save_as_json fs path none = .ok { fs with files := fs.files ++
        [(osPathJoin path "training_parameters.json", cfg.to_dict)] }) := by
  refine ⟨?_, ?_, ?_⟩
  · intro h
    simp [TrainingParam.save_as_json, h]
  · intro h1 h2
    simp [TrainingParam.save_as_json, h1, h2]
  · intro h1 h2
    simp [TrainingParam.save_as_json, h1, h2]

/-- Witness for C7: the three branches on three constant filesystems. -/
theorem TrainingParam.save_as_json_errors_witness :
    (TrainingParam.init).save_as_json fsMissing "out" none =
      .error .runtimeErrorDirNotFound ∧
    (TrainingParam.init).save_as_json fsNotDir "out" none =
      .error .notADirectoryError ∧
    (TrainingParam.init).save_as_json fsDir "out" none =
      .ok { fsDir with files := fsDir.files ++
        [(osPathJoin "out" "training_parameters.json", (TrainingParam.init).to_dict)] } :=
  ⟨(TrainingParam.save_as_json_errors TrainingParam.init fsMissing "out").1 rfl,
   (TrainingParam.save_as_json_errors TrainingParam.init fsNotDir "out").2.1 rfl rfl,
   (TrainingParam.save_as_json_errors TrainingParam.init fsDir "out").2.2 rfl rfl⟩

/-- Claim C2: on a configuration whose schedule fields hold numbers with
`initial_epsilon ≥ final_epsilon > 0` and `step_for_final_epsilon > 0` and
whose exponent coefficient is the one the class derives from them, the
in-range branch of `get_next_epsilon` is monotonically non-increasing:
for steps `0 ≤ s1 ≤ s2 ≤ step_for_final_epsilon` the epsilon returned at
`s2` is at most the epsilon returned at `s1`. -/
theorem TrainingParam.get_next_epsilon_antitone (cfg : TrainingParam)
    (sfe fe ie : ℚ) (s1 s2 : ℤ)
    (hsfe : cfg.step_for_final_epsilon = some sfe)
    ( _hfe : cfg.final_epsilon = some fe)
    (hie : cfg.initial_epsilon = some ie)
    (hfac : cfg._exp_facto = Real.log ((ie : ℝ) / (fe : ℝ)))
    (hfe0 : 0 < fe) (hge : fe ≤ ie) (hS : 0 < sfe)
    ( _h0 : 0 ≤ s1) (h12 : s1 ≤ s2) (h2 : (s2 : ℚ) ≤ sfe) :
    ∃ r1 r2 : ℝ, (cfg.get_next_epsilon s1).1 = .ok (some r1) ∧
      (cfg.get_next_epsilon s2).1 = .ok (some r2) ∧ r2 ≤ r1 := by
  have h1 : (s1 : ℚ) ≤ sfe := le_trans (by exact_mod_cast h12) h2
  have hb1 : ¬ (sfe < (s1 : ℚ)) := not_lt.mpr h1
  have hb2 : ¬ (sfe < (s2 : ℚ)) := not_lt.mpr h2
  have hSne : ¬ (sfe = 0) := ne_of_gt hS
  refine ⟨(ie : ℝ) * Real.exp (-(((s1 : ℤ) : ℝ) / ((sfe : ℚ) : ℝ)) * cfg._exp_facto),
    (ie : ℝ) * Real.exp (-(((s2 : ℤ) : ℝ) / ((sfe : ℚ) : ℝ)) * cfg._exp_facto),
    ?_, ?_, ?_⟩
  · simp only [TrainingParam.get_next_epsilon, hsfe, hie]
    rw [if_neg hb1, if_neg hSne]
  · simp only [TrainingParam.get_next_epsilon, hsfe, hie]
    rw [if_neg hb2, if_neg hSne]
  · have hiepos : (0 : ℝ) < (ie : ℝ) := by
      exact_mod_cast lt_of_lt_of_le hfe0 hge
    have hL : 0 ≤ Real.log ((ie : ℝ) / (fe : ℝ)) := by
      apply Real.log_nonneg
      rw [le_div_iff₀ (by exact_mod_cast hfe0)]
      simpa using (by exact_mod_cast hge : (fe : ℝ) ≤ (ie : ℝ))
    have hSpos : (0 : ℝ) < ((sfe : ℚ) : ℝ) := by exact_mod_cast hS
    have hdiv : ((s1 : ℤ) : ℝ) / ((sfe : ℚ) : ℝ) ≤ ((s2 : ℤ) : ℝ) / ((sfe : ℚ) : ℝ) := by
      apply div_le_div_of_nonneg_right ?_ hSpos.le
      exact_mod_cast h12
    have harg : -(((s2 : ℤ) : ℝ) / ((sfe : ℚ) : ℝ)) * cfg._exp_facto ≤
        -(((s1 : ℤ) : ℝ) / ((sfe : ℚ) : ℝ)) * cfg._exp_facto := by
      rw [hfac]
      exact mul_le_mul_of_nonneg_right (neg_le_neg hdiv) hL
    exact mul_le_mul_of_nonneg_left (Real.exp_le_exp.mpr harg) (le_of_lt hiepos)

/-- Witness for C2: the default configuration at steps `0 ≤ 1 ≤ 100000`. -/
theorem TrainingParam.get_next_epsilon_antitone_witness :
    ∃ r1 r2 : ℝ, ((TrainingParam.init).get_next_epsilon 0).1 = .ok (some r1) ∧
      ((TrainingParam.init).get_next_epsilon 1).1 = .ok (some r2) ∧ r2 ≤ r1 :=
  TrainingParam.get_next_epsilon_antitone TrainingParam.init
    ((100000 : ℤ) : ℚ) (1/(7*288)) (4/10) 0 1 rfl rfl rfl
    (by rw [TrainingParam.init, if_pos] ; norm_num)
    (by norm_num) (by norm_num) (by norm_num) (by norm_num) (by norm_num)
    (by norm_num)

/-- Claim C6: the derived coefficients are consistent with their source
fields — `_1_update_nb_iter = 1/update_nb_iter_` for positive
`update_nb_iter_` and `1.0` otherwise, `_exp_facto` the log-ratio for
positive `final_epsilon` and the fallback `1` otherwise — after
construction (any arguments), after the `update_nb_iter` setter (given it
held before, for the untouched `_exp_facto` half), and after any successful
`from_dict`: derived fields are never stale after a mutating operation. -/
theorem TrainingParam.derived_fields_consistent :
    (∀ (b ms : Option ℤ) (sfe : ℤ) (mo : Option ℤ) (fe ie : ℚ) (lr : Option ℚ)
      (lds ldr : ℚ) (nf : ℤ) (df tu : ℚ) (uf mni mxi : Option ℤ) (uni : ℤ)
      (sinc utf sme rsds : Option ℤ) (ovr mgng mvg ml : Option ℚ),
      (TrainingParam.init b ms sfe mo fe ie lr lds ldr nf df tu uf mni mxi uni sinc
        utf sme rsds ovr mgng mvg ml).derivedConsistent) ∧
    (∀ (cfg : TrainingParam) (n : ℤ), cfg.derivedConsistent →
      (cfg.update_nb_iter n).derivedConsistent) ∧
    (∀ (tmp : PyInput) (cfg : TrainingParam),
      TrainingParam.from_dict tmp = .ok cfg → cfg.derivedConsistent) := by
  refine ⟨?_, ?_, ?_⟩
  · intro b ms sfe mo fe ie lr lds ldr nf df tu uf mni mxi uni sinc utf sme rsds
      ovr mgng mvg ml
    constructor
    · intro u hu
      simp only [TrainingParam.init, Option.some.injEq] at hu ⊢
      subst hu
      rfl
    · intro f i hf hi
      simp only [TrainingParam.init, Option.some.injEq] at hf hi ⊢
      subst hf
      subst hi
      rfl
  · intro cfg n h
    constructor
    · intro u hu
      simp only [TrainingParam.update_nb_iter, Option.some.injEq] at hu ⊢
      subst hu
      rfl
    · intro f i hf hi
      simp only [TrainingParam.update_nb_iter] at hf hi ⊢
      exact h.2 f i hf hi
  · intro tmp cfg h
    cases tmp with
    | nonDict => simp [TrainingParam.from_dict] at h
    | dict d =>
      simp only [TrainingParam.from_dict] at h
      split at h
      · simp at h
      · rename_i f heqF
        split at h
        · rename_i hf
          split at h
          · simp at h
          · rename_i i heqI
            split at h
            · simp at h
            · rename_i u heqU
              injection h with h2
              subst h2
              constructor
              · intro u' hu'
                simp only [TrainingParam.update_nb_iter, Option.some.injEq] at hu' ⊢
                subst hu'
                rfl
              · intro f' i' hf' hi'
                simp only [TrainingParam.update_nb_iter] at hf' hi' ⊢
                rw [hf'] at heqF
                rw [hi'] at heqI
                injection heqF with hff
                injection heqI with hii
                rw [if_pos (hff ▸ hf), hii, hff]
        · rename_i hf
          split at h
          · simp at h
          · rename_i u heqU
            injection h with h2
            subst h2
            constructor
            · intro u' hu'
              simp only [TrainingParam.update_nb_iter, Option.some.injEq] at hu' ⊢
              subst hu'
              rfl
            · intro f' i' hf' hi'
              simp only [TrainingParam.update_nb_iter] at hf' hi' ⊢
              rw [hf'] at heqF
              injection heqF with hff
              rw [if_neg (hff ▸ hf)]

/-- Witness for C6: the setter applied to the default configuration, and the
configuration loaded back from the default configuration's dictionary. -/
theorem TrainingParam.derived_fields_consistent_witness :
    ((TrainingParam.init).update_nb_iter 5).derivedConsistent ∧
    TrainingParam.derivedConsistent
      { TrainingParam.init with random_sample_datetime_start := none } :=
  ⟨TrainingParam.derived_fields_consistent.2.1 TrainingParam.init 5
      (TrainingParam.derived_fields_consistent.1 (some 40000) (some 64) 100000
        (some 5000) (1/(7*288)) (4/10) (some (1/10000)) 10000 (999/1000) 1 (99/100)
        (1/10) (some 256) (some 50) (some 8064) 10 (some 0) (some 1000) (some 10000)
        none none none none (some 1000)),
   TrainingParam.derived_fields_consistent.2.2
      (.dict (TrainingParam.init).to_dict)
      { TrainingParam.init with random_sample_datetime_start := none }
      (roundtrip_aux (some 40000) (some 64) 100000 (some 5000) (1/(7*288)) (4/10)
        (some (1/10000)) 10000 (999/1000) 1 (99/100) (1/10) (some 256) (some 50)
        (some 8064) 10 (some 0) (some 1000) (some 10000) none none none none
        (some 1000) 0)⟩

/-- Claim C9: the constructor normalizes a `None` `step_increase_nb_iter` to
`0`, but the `from_dict` integer loop does not: a mapping whose
`step_increase_nb_iter` key holds `None` loads into a configuration whose
field is `None` (not `0`), on which the default `max_iter_fun` policy then
hits the non-numeric field (`TypeError`) for every `nb_success`. -/
theorem TrainingParam.step_increase_nb_iter_none_asymmetry :
    (∀ (b ms : Option ℤ) (sfe : ℤ) (mo : Option ℤ) (fe ie : ℚ) (lr : Option ℚ)
      (lds ldr : ℚ) (nf : ℤ) (df tu : ℚ) (uf mni mxi : Option ℤ) (uni : ℤ)
      (utf sme rsds : Option ℤ) (ovr mgng mvg ml : Option ℚ),
      (TrainingParam.init b ms sfe mo fe ie lr lds ldr nf df tu uf mni mxi uni none
        utf sme rsds ovr mgng mvg ml).step_increase_nb_iter = some 0) ∧
    (∃ cfg : TrainingParam, TrainingParam.from_dict (.dict dStepNone) = .ok cfg ∧
      cfg.step_increase_nb_iter = none ∧
      ∀ n : ℤ, cfg.default_max_iter_fun n = .error .typeError) := by
  constructor
  · intro b ms sfe mo fe ie lr lds ldr nf df tu uf mni mxi uni utf sme rsds ovr
      mgng mvg ml
    rfl
  · have hcfg : TrainingParam.from_dict (.dict dStepNone) =
        .ok (({ TrainingParam.init with
            step_increase_nb_iter := none
            _exp_facto := Real.log (((4/10 : ℚ) : ℝ) / ((1/(7*288) : ℚ) : ℝ))
          }).update_nb_iter 10) := by
      simp only [TrainingParam.from_dict, dStepNone, TrainingParam.applyIntAttrs,
        TrainingParam.applyFloatAttrs, applyIntEntry, applyIntEntryQ,
        applyFloatEntry, TrainingParam.init]
      rw [if_pos (by norm_num)]
    refine ⟨_, hcfg, rfl, fun n => rfl⟩
